import Mathlib

/-!
Verification of the CCTV violation-monitoring core (src/main.py, src/data.py).

The development shallowly embeds the code that the claims are about:
* `ViolationRecord` mirrors the dataclass in src/data.py.
* `get_record_identifier` mirrors `ViolationMonitor._get_record_identifier`.
* `processRecord` / `pollCycle` mirror one iteration of the body of
  `ViolationMonitor.monitor_sql_db` (the detection loop over the fetched
  records followed by the intersection shrink of `seen_record_ids`).
* `initialSeen` mirrors the startup snapshot taken at the top of
  `monitor_sql_db`.
* `monitorRun` iterates `pollCycle` over a list of successful fetches
  (a cycle whose fetch raises sends nothing and leaves the state
  unchanged, so such cycles are not represented).

Python strings/sets are modelled as `String`/`Finset String`; optional
(possibly `None` or empty, i.e. falsy) string fields as `Option String`.
-/

namespace CCTV

/-- Mirror of the `ViolationRecord` dataclass (src/data.py).  The `id` and
`image_url` columns may be NULL in the store, hence `Option String`;
Python truthiness on them is `truthyStr`. -/
structure ViolationRecord where
  timestamp : String
  factory_area : String
  inspection_section : String
  violation_type : String
  image_url : Option String
  id : Option String
  resolved : Bool := false
  row_index : Int := -1
  creation_tz : String := "Asia/Singapore"
deriving DecidableEq, Repr

/-- Python truthiness of an optional string: `None` and `""` are falsy. -/
def truthyStr : Option String → Bool
  | none => false
  | some s => !s.isEmpty

/-- Python `str(x)` applied to an optional string (`str(None) = "None"`). -/
def pyStr : Option String → String
  | none => "None"
  | some s => s

/-- Mirror of `ViolationMonitor._get_record_identifier` (src/main.py
lines 377-385): `"id_" + record.id` when `record.id` is truthy, otherwise
the underscore-joined composite of timestamp, factory_area,
inspection_section and violation_type. -/
def get_record_identifier (r : ViolationRecord) : String :=
  if truthyStr r.id then
    "id_" ++ pyStr r.id
  else
    r.timestamp ++ "_" ++ r.factory_area ++ "_" ++ r.inspection_section
      ++ "_" ++ r.violation_type

/-- The set of identities of a fetched record list. -/
def fetchIds (rs : List ViolationRecord) : Finset String :=
  (rs.map get_record_identifier).toFinset

/-- State of the per-cycle detection loop in `monitor_sql_db`:
`new_records`, `current_record_ids` and `seen_record_ids` as they evolve
through the `for record in current_records` loop. -/
structure CycleState where
  new_records : List ViolationRecord
  current_record_ids : Finset String
  seen_record_ids : Finset String

/-- One iteration of the detection loop (src/main.py lines 337-344):
add the identity to `current_record_ids`; if it is not yet seen, append
the record to `new_records` and add the identity to `seen_record_ids`. -/
def processRecord (st : CycleState) (r : ViolationRecord) : CycleState :=
  if get_record_identifier r ∈ st.seen_record_ids then
    { st with current_record_ids :=
        insert (get_record_identifier r) st.current_record_ids }
  else
    { new_records := st.new_records ++ [r],
      current_record_ids := insert (get_record_identifier r) st.current_record_ids,
      seen_record_ids := insert (get_record_identifier r) st.seen_record_ids }

/-- One poll cycle of `monitor_sql_db` (src/main.py lines 327-363),
as a function of the previous seen-set and the fetched record list:
returns the batch of newly detected records (in fetch order) and the
seen-set after the shrink
`seen_record_ids = seen_record_ids.intersection(current_record_ids)`. -/
def pollCycle (seen : Finset String) (fetched : List ViolationRecord) :
    List ViolationRecord × Finset String :=
  ((fetched.foldl processRecord ⟨[], ∅, seen⟩).new_records,
    (fetched.foldl processRecord ⟨[], ∅, seen⟩).seen_record_ids ∩
      (fetched.foldl processRecord ⟨[], ∅, seen⟩).current_record_ids)

/-- The startup snapshot of `monitor_sql_db` (src/main.py lines 303-314):
every identity present in the initial fetch is recorded as already seen. -/
def initialSeen (rs : List ViolationRecord) : Finset String :=
  rs.foldl (fun s r => insert (get_record_identifier r) s) ∅

/-- The monitoring loop over a sequence of fetches: the list of per-cycle
alert batches. -/
def monitorRun (seen : Finset String) :
    List (List ViolationRecord) → List (List ViolationRecord)
  | [] => []
  | f :: fs => (pollCycle seen f).1 :: monitorRun (pollCycle seen f).2 fs

/-! ### Basic lemmas about the detection fold -/

theorem processRecord_current (st : CycleState) (r : ViolationRecord) :
    (processRecord st r).current_record_ids =
      insert (get_record_identifier r) st.current_record_ids := by
  unfold processRecord
  split <;> rfl

theorem processRecord_seen (st : CycleState) (r : ViolationRecord) :
    (processRecord st r).seen_record_ids =
      insert (get_record_identifier r) st.seen_record_ids := by
  unfold processRecord
  split
  · exact (Finset.insert_eq_self.mpr (by assumption)).symm
  · rfl

theorem foldl_current (fetched : List ViolationRecord) :
    ∀ st : CycleState,
      (fetched.foldl processRecord st).current_record_ids =
        st.current_record_ids ∪ fetchIds fetched := by
  induction fetched with
  | nil => intro st; simp [fetchIds]
  | cons r f ih =>
      intro st
      rw [List.foldl_cons, ih, processRecord_current]
      simp [fetchIds, Finset.insert_union, Finset.union_insert]

theorem foldl_seen (fetched : List ViolationRecord) :
    ∀ st : CycleState,
      (fetched.foldl processRecord st).seen_record_ids =
        st.seen_record_ids ∪ fetchIds fetched := by
  induction fetched with
  | nil => intro st; simp [fetchIds]
  | cons r f ih =>
      intro st
      rw [List.foldl_cons, ih, processRecord_seen]
      simp [fetchIds, Finset.insert_union, Finset.union_insert]

theorem foldl_new_mem (fetched : List ViolationRecord) :
    ∀ st : CycleState, ∀ r' ∈ (fetched.foldl processRecord st).new_records,
      r' ∈ st.new_records ∨
        (r' ∈ fetched ∧ get_record_identifier r' ∉ st.seen_record_ids) := by
  induction fetched with
  | nil => intro st r' h; exact Or.inl h
  | cons r f ih =>
      intro st r' h
      rw [List.foldl_cons] at h
      rcases ih (processRecord st r) r' h with h1 | ⟨h1, h2⟩
      · unfold processRecord at h1
        split at h1
        · exact Or.inl h1
        · rcases List.mem_append.mp h1 with h3 | h3
          · exact Or.inl h3
          · refine Or.inr ⟨?_, ?_⟩
            · simp [List.mem_singleton.mp h3]
            · rw [List.mem_singleton.mp h3]; assumption
      · rw [processRecord_seen] at h2
        exact Or.inr ⟨List.mem_cons_of_mem r h1,
          fun hmem => h2 (Finset.mem_insert_of_mem hmem)⟩

/-- Everything in a cycle's new-record batch came from the fetch and was
not previously seen. -/
theorem pollCycle_new_mem (seen : Finset String) (fetched : List ViolationRecord) :
    ∀ r ∈ (pollCycle seen fetched).1,
      r ∈ fetched ∧ get_record_identifier r ∉ seen := by
  intro r h
  rcases foldl_new_mem fetched ⟨[], ∅, seen⟩ r h with h1 | h1
  · cases h1
  · exact h1

/-- A record whose identity is already in the seen-set is never in the
new-record batch of that cycle. -/
theorem pollCycle_not_new (seen : Finset String) (fetched : List ViolationRecord)
    (r : ViolationRecord) (h : get_record_identifier r ∈ seen) :
    r ∉ (pollCycle seen fetched).1 := by
  intro hmem
  exact (pollCycle_new_mem seen fetched r hmem).2 h

/-- After a cycle, the seen-set is exactly the identity set of that
cycle's fetch. -/
theorem pollCycle_seen_eq (seen : Finset String) (fetched : List ViolationRecord) :
    (pollCycle seen fetched).2 = fetchIds fetched := by
  unfold pollCycle
  rw [foldl_seen, foldl_current]
  simp

/-- C2 -- After every completed poll cycle, the seen-record-id set equals
exactly the set of identities of the records returned by that cycle's
fetch, for every prior seen-set and every fetched record list: every
fetched identity is in the set and every identity absent from the fetch
has been dropped. -/
theorem c2_seen_set_equals_fetch (seen : Finset String)
    (fetched : List ViolationRecord) :
    (pollCycle seen fetched).2 = fetchIds fetched ∧
      (∀ r ∈ fetched, get_record_identifier r ∈ (pollCycle seen fetched).2) ∧
      (∀ rid ∈ (pollCycle seen fetched).2, rid ∈ fetchIds fetched) := by
  refine ⟨pollCycle_seen_eq seen fetched, ?_, ?_⟩
  · intro r hr
    rw [pollCycle_seen_eq]
    exact List.mem_toFinset.mpr (List.mem_map_of_mem get_record_identifier hr)
  · intro rid hrid
    rw [pollCycle_seen_eq] at hrid
    exact hrid

theorem mem_fetchIds_of_mem {r : ViolationRecord} {rs : List ViolationRecord}
    (h : r ∈ rs) : get_record_identifier r ∈ fetchIds rs :=
  List.mem_toFinset.mpr (List.mem_map_of_mem get_record_identifier h)

theorem foldl_insert_ids (rs : List ViolationRecord) :
    ∀ s : Finset String,
      rs.foldl (fun s r => insert (get_record_identifier r) s) s =
        s ∪ fetchIds rs := by
  induction rs with
  | nil => intro s; simp [fetchIds]
  | cons r f ih =>
      intro s
      rw [List.foldl_cons, ih]
      simp [fetchIds, Finset.insert_union, Finset.union_insert]

/-- The startup snapshot records exactly the identities of the initial
fetch. -/
theorem initialSeen_eq (rs : List ViolationRecord) :
    initialSeen rs = fetchIds rs := by
  unfold initialSeen
  rw [foldl_insert_ids]
  simp

/-- If a record's identity is seen before a run and its identity occurs in
every fetch of the run, it is in no alert batch of the run. -/
theorem monitorRun_not_alerted (r : ViolationRecord) :
    ∀ (fetches : List (List ViolationRecord)) (seen : Finset String),
      get_record_identifier r ∈ seen →
      (∀ f ∈ fetches, get_record_identifier r ∈ fetchIds f) →
      ∀ a ∈ monitorRun seen fetches, r ∉ a := by
  intro fetches
  induction fetches with
  | nil =>
      intro seen _ _ a ha
      simp [monitorRun] at ha
  | cons f fs ih =>
      intro seen hseen hp a ha
      rw [monitorRun] at ha
      rcases List.mem_cons.mp ha with rfl | ha
      · exact pollCycle_not_new seen f r hseen
      · exact ih (pollCycle seen f).2
          (by rw [pollCycle_seen_eq]; exact hp f (List.mem_cons_self f fs))
          (fun f' hf' => hp f' (List.mem_cons_of_mem f hf')) a ha

/-- Sample record used to instantiate the theorems on concrete inputs. -/
def recA : ViolationRecord :=
  { timestamp := "01/02/25 03:04 PM", factory_area := "Area A",
    inspection_section := "Pen 1", violation_type := "No PPE",
    image_url := some "http://img/1.jpg", id := some "a1" }

/-- Sample record with a different identity. -/
def recB : ViolationRecord :=
  { timestamp := "01/02/25 03:05 PM", factory_area := "Area B",
    inspection_section := "Pen 2", violation_type := "Smoking",
    image_url := none, id := some "b2" }

/-- Sample record whose `id` field is falsy (NULL in the store). -/
def recNoId : ViolationRecord :=
  { timestamp := "01/02/25 03:06 PM", factory_area := "Area C",
    inspection_section := "Pen 3", violation_type := "No hairnet",
    image_url := some "http://img/3.jpg", id := none }

/-- Sample record with an empty-string `id` agreeing with `recNoId` on the
four composite fields but differing elsewhere. -/
def recNoId2 : ViolationRecord :=
  { timestamp := "01/02/25 03:06 PM", factory_area := "Area C",
    inspection_section := "Pen 3", violation_type := "No hairnet",
    image_url := none, id := some "", resolved := true, row_index := 7 }

/-- C1 -- the claim as frozen is false on the code: a record present at the
initial snapshot IS alerted in a later cycle if its identity disappears
from one fetch (so the intersection shrink purges it from the seen-set)
and then reappears.  Concretely, with snapshot `[recA]` and fetches
`[[], [recA]]`, the second cycle's alert batch contains `recA`. -/
theorem c1_counterexample :
    ¬ (∀ (snapshot : List ViolationRecord)
        (fetches : List (List ViolationRecord)) (r : ViolationRecord),
        r ∈ snapshot →
          ∀ a ∈ monitorRun (initialSeen snapshot) fetches, r ∉ a) := by
  intro h
  exact h [recA] [[], [recA]] recA (by decide) [recA] (by decide) (by decide)

/-- C1 (amended) -- For every record present at the initial snapshot, no
alert is ever dispatched for it in any poll cycle PROVIDED its identity
appears in every fetch of the run; an alert for a snapshot record can only
happen after its identity was absent from some fetch (purged from the
seen-set by the intersection shrink) and later reappeared. -/
theorem c1_no_alert_for_snapshot_records (snapshot : List ViolationRecord)
    (fetches : List (List ViolationRecord)) (r : ViolationRecord)
    (hr : r ∈ snapshot)
    (hp : ∀ f ∈ fetches, get_record_identifier r ∈ fetchIds f) :
    ∀ a ∈ monitorRun (initialSeen snapshot) fetches, r ∉ a :=
  monitorRun_not_alerted r fetches (initialSeen snapshot)
    (by rw [initialSeen_eq]; exact mem_fetchIds_of_mem hr) hp

theorem c1_no_alert_for_snapshot_records_witness :
    recA ∈ [recA, recB] ∧
      (∀ f ∈ [[recA, recB], [recA]], get_record_identifier recA ∈ fetchIds f) ∧
      ∀ a ∈ monitorRun (initialSeen [recA, recB]) [[recA, recB], [recA]], recA ∉ a :=
  ⟨by decide, by decide,
    c1_no_alert_for_snapshot_records [recA, recB] [[recA, recB], [recA]] recA
      (by decide) (by decide)⟩

/-- C3 -- The deduplication identity is derived from the record's `id`
field whenever it is present and non-empty, and otherwise is the composite
of timestamp, factory area, inspection section and violation type; two
records with falsy `id` agreeing on all four fields get the same identity. -/
theorem c3_record_identity (r r' : ViolationRecord) :
    (∀ s : String, r.id = some s → s ≠ "" →
      get_record_identifier r = "id_" ++ s) ∧
    (truthyStr r.id = false →
      get_record_identifier r =
        r.timestamp ++ "_" ++ r.factory_area ++ "_" ++ r.inspection_section
          ++ "_" ++ r.violation_type) ∧
    (truthyStr r.id = false → truthyStr r'.id = false →
      r.timestamp = r'.timestamp → r.factory_area = r'.factory_area →
      r.inspection_section = r'.inspection_section →
      r.violation_type = r'.violation_type →
      get_record_identifier r = get_record_identifier r') := by
  refine ⟨?_, ?_, ?_⟩
  · intro s hs hne
    have htr : truthyStr r.id = true := by
      rw [hs]
      unfold truthyStr
      cases hie : s.isEmpty
      · simp [hie]
      · exact absurd ((String.isEmpty_iff s).mp hie) hne
    unfold get_record_identifier
    rw [htr, hs]
    rfl
  · intro hf
    unfold get_record_identifier
    rw [hf]
    rfl
  · intro hf hf' h1 h2 h3 h4
    unfold get_record_identifier
    rw [hf, hf', h1, h2, h3, h4]
    rfl

theorem c3_record_identity_witness :
    get_record_identifier recA = "id_a1" ∧
      get_record_identifier recNoId =
        "01/02/25 03:06 PM" ++ "_" ++ "Area C" ++ "_" ++ "Pen 3" ++ "_"
          ++ "No hairnet" ∧
      get_record_identifier recNoId = get_record_identifier recNoId2 :=
  ⟨(c3_record_identity recA recA).1 "a1" rfl (by decide),
    (c3_record_identity recNoId recNoId).2.1 (by decide),
    (c3_record_identity recNoId recNoId2).2.2 (by decide) (by decide) rfl rfl rfl rfl⟩

/-! ### Tiered delivery (src/main.py `send_new_violation_alert`, lines 216-252)

Each transport call (`wa_send_violation_template`, `wa_send_image_url`,
`wa_send_text`) either reports success (`ok`), reports failure (`fail`,
wa_send returns ok=False on a non-2xx response), or raises (`exn`, e.g. a
requests timeout).  A raise escapes `send_new_violation_alert` and is
caught by the per-address try/except of the monitoring loop. -/

inductive TierResult where
  | ok
  | fail
  | exn
deriving DecidableEq, Repr

/-- An outbound transport call, identified by its tier and payload
(`dst` is the destination phone number). -/
inductive SendAttempt where
  | template (dst case_id time_sg area sect violation : String)
  | image (dst url caption : String)
  | text (dst body : String)
deriving DecidableEq, Repr

def STREAMLIT_URL : String :=
  "https://hrtowii-fyp-proj-japfa-cctvstreamlit-app-nt7gbx.streamlit.app/"

/-- Mirror of the timezone label: the last slash-separated component of
`creation_tz` when it has one, else `creation_tz` itself. -/
def tzName (creation_tz : String) : String :=
  if creation_tz.contains '/' then (creation_tz.splitOn "/").getLastD creation_tz
  else creation_tz

/-- The time label: the timestamp followed by the timezone name in
parentheses. -/
def timeWithTz (r : ViolationRecord) : String :=
  r.timestamp ++ " (" ++ tzName r.creation_tz ++ ")"

/-- The case link: STREAMLIT_URL followed by the case-id query. -/
def caseUrl (r : ViolationRecord) : String :=
  STREAMLIT_URL ++ "/?case_id=" ++ pyStr r.id

/-- The composed fallback message body (src/main.py lines 238-246). -/
def violationText (r : ViolationRecord) : String :=
  "🚨 NEW VIOLATION DETECTED\n\n" ++
  "🆔 Case ID: " ++ pyStr r.id ++ "\n" ++
  "⏰ Time: " ++ timeWithTz r ++ "\n" ++
  "🏭 Area: " ++ r.factory_area ++ "\n" ++
  "🔍 Section: " ++ r.inspection_section ++ "\n" ++
  "⚠️ Violation: " ++ r.violation_type ++ "\n\n" ++
  "🔗 Review Case: " ++ caseUrl r ++ "\n"

def templateAttempt (r : ViolationRecord) (chat_id : String) : SendAttempt :=
  SendAttempt.template chat_id (pyStr r.id) (timeWithTz r) r.factory_area
    r.inspection_section r.violation_type

def imageAttempt (r : ViolationRecord) (chat_id : String) : SendAttempt :=
  SendAttempt.image chat_id (r.image_url.getD "") (violationText r)

def textAttempt (r : ViolationRecord) (chat_id : String) : SendAttempt :=
  SendAttempt.text chat_id (violationText r)

/-- Mirror of `ViolationMonitor.send_new_violation_alert` as a function of the three
tiers' transport results: returns the list of transport calls actually
made, in order, and whether the call raised (escaping to the caller's
try/except).  Mirrors src/main.py lines 216-252: template first, early
return on success; then, only if the record's `image_url` is truthy, image
with the composed caption, early return on success; finally plain text
(whose result is discarded). -/
def send_new_violation_alert (r : ViolationRecord) (chat_id : String)
    (tmplRes imgRes textRes : TierResult) : List SendAttempt × Bool :=
  match tmplRes with
  | TierResult.ok => ([templateAttempt r chat_id], false)
  | TierResult.exn => ([templateAttempt r chat_id], true)
  | TierResult.fail =>
    if truthyStr r.image_url then
      match imgRes with
      | TierResult.ok => ([templateAttempt r chat_id, imageAttempt r chat_id], false)
      | TierResult.exn => ([templateAttempt r chat_id, imageAttempt r chat_id], true)
      | TierResult.fail =>
          ([templateAttempt r chat_id, imageAttempt r chat_id, textAttempt r chat_id],
            textRes == TierResult.exn)
    else
      ([templateAttempt r chat_id, textAttempt r chat_id], textRes == TierResult.exn)

/-- Transport behaviour for a poll cycle: the three tier results for each
(record, address) pair. -/
abbrev Outcome := ViolationRecord → String → TierResult × TierResult × TierResult

/-- The alert fan-out loop of `monitor_sql_db` (src/main.py lines 352-359):
for each new record, for each active chat id, call
`send_new_violation_alert` inside a try/except that logs and continues; so
every pair is attempted, whatever the outcomes, and the loop records for
each pair the calls made and whether the alert raised (the raise being
caught). -/
def alertLoop (outcome : Outcome) (new_records : List ViolationRecord)
    (chats : List String) :
    List (ViolationRecord × String × List SendAttempt × Bool) :=
  new_records.flatMap fun r => chats.map fun c =>
    (r, c, send_new_violation_alert r c (outcome r c).1 (outcome r c).2.1
      (outcome r c).2.2)

theorem alertLoop_pairs (outcome : Outcome) (new_records : List ViolationRecord)
    (chats : List String) :
    (alertLoop outcome new_records chats).map (fun t => (t.1, t.2.1)) =
      new_records.flatMap fun r => chats.map fun c => (r, c) := by
  induction new_records with
  | nil => rfl
  | cons r new ih =>
      unfold alertLoop at ih ⊢
      rw [List.flatMap_cons, List.flatMap_cons, List.map_append, ih,
        List.map_map]
      rfl

/-- C5 -- For every new-record batch and registered address list, the set
of attempted (record, address) pairs is the full product and does not
depend on the transport outcomes: a delivery failure, or a raised
exception, for one address neither prevents the attempt for any other
address of the same record nor for any later record of the batch. -/
theorem c5_failure_isolation (outcome outcome' : Outcome)
    (new_records : List ViolationRecord) (chats : List String) :
    (alertLoop outcome new_records chats).map (fun t => (t.1, t.2.1)) =
      (new_records.flatMap fun r => chats.map fun c => (r, c)) ∧
    (alertLoop outcome new_records chats).map (fun t => (t.1, t.2.1)) =
      (alertLoop outcome' new_records chats).map (fun t => (t.1, t.2.1)) := by
  refine ⟨alertLoop_pairs outcome new_records chats, ?_⟩
  rw [alertLoop_pairs, alertLoop_pairs]

/-! ### New-record batches contain no duplicate identities -/

theorem foldl_new_invariant (fetched : List ViolationRecord) :
    ∀ st : CycleState,
      (st.new_records.map get_record_identifier).Nodup →
      (∀ r' ∈ st.new_records, get_record_identifier r' ∈ st.seen_record_ids) →
      ((fetched.foldl processRecord st).new_records.map
          get_record_identifier).Nodup ∧
        ∀ r' ∈ (fetched.foldl processRecord st).new_records,
          get_record_identifier r' ∈
            (fetched.foldl processRecord st).seen_record_ids := by
  induction fetched with
  | nil => intro st h1 h2; exact ⟨h1, h2⟩
  | cons r f ih =>
      intro st h1 h2
      rw [List.foldl_cons]
      apply ih
      · unfold processRecord
        split
        · exact h1
        · rw [List.map_append]
          refine List.Nodup.append h1 (List.nodup_singleton _) ?_
          intro a ha ha'
          rw [List.mem_singleton.mp ha'] at ha
          rcases List.mem_map.mp ha with ⟨r', hr', hid⟩
          exact absurd (hid ▸ h2 r' hr') (by assumption)
      · unfold processRecord
        split
        · exact h2
        · intro r' hr'
          rcases List.mem_append.mp hr' with h3 | h3
          · exact Finset.mem_insert_of_mem (h2 r' h3)
          · rw [List.mem_singleton.mp h3]
            exact Finset.mem_insert_self _ _

theorem pollCycle_new_ids_nodup (seen : Finset String)
    (fetched : List ViolationRecord) :
    ((pollCycle seen fetched).1.map get_record_identifier).Nodup :=
  (foldl_new_invariant fetched ⟨[], ∅, seen⟩ List.nodup_nil
    (by intro r h; cases h)).1

theorem pollCycle_new_nodup (seen : Finset String)
    (fetched : List ViolationRecord) : (pollCycle seen fetched).1.Nodup :=
  (pollCycle_new_ids_nodup seen fetched).of_map

/-- Number of occurrences of `x` in a list (instance-free counting). -/
def countOcc {α : Type} [DecidableEq α] (x : α) : List α → Nat
  | [] => 0
  | a :: l => (if a = x then 1 else 0) + countOcc x l

theorem countOcc_append {α : Type} [DecidableEq α] (x : α) (l₁ l₂ : List α) :
    countOcc x (l₁ ++ l₂) = countOcc x l₁ + countOcc x l₂ := by
  induction l₁ with
  | nil => simp [countOcc]
  | cons a l ih => simp [countOcc, ih, Nat.add_assoc]

theorem countOcc_eq_zero_of_not_mem {α : Type} [DecidableEq α] {x : α}
    {l : List α} (h : x ∉ l) : countOcc x l = 0 := by
  induction l with
  | nil => rfl
  | cons a l ih =>
      rw [countOcc,
        if_neg (fun ha => h (by rw [← ha]; exact List.mem_cons_self a l)),
        ih (fun hl => h (List.mem_cons_of_mem a hl))]

theorem countOcc_eq_one_of_nodup_mem {α : Type} [DecidableEq α] {x : α}
    {l : List α} (hnd : l.Nodup) (hx : x ∈ l) : countOcc x l = 1 := by
  induction l with
  | nil => cases hx
  | cons a l ih =>
      rw [countOcc]
      rcases List.mem_cons.mp hx with rfl | hx'
      · rw [if_pos rfl,
          countOcc_eq_zero_of_not_mem (List.nodup_cons.mp hnd).1]
      · rw [if_neg (fun ha => (List.nodup_cons.mp hnd).1 (by rw [ha]; exact hx')),
          ih (List.nodup_cons.mp hnd).2 hx']

theorem countOcc_map_pair (a : ViolationRecord) (chats : List String)
    (r : ViolationRecord) (c : String) :
    countOcc (r, c) (chats.map fun c' => (a, c')) =
      if a = r then countOcc c chats else 0 := by
  induction chats with
  | nil => simp [countOcc]
  | cons c' chats ih =>
      rw [List.map_cons, countOcc, countOcc, ih]
      by_cases h : a = r
      · subst h
        rw [if_pos rfl, if_pos rfl]
        by_cases hc : c' = c
        · rw [if_pos (by rw [hc]), if_pos hc]
        · rw [if_neg (fun hp => hc (congrArg Prod.snd hp)), if_neg hc]
      · rw [if_neg h, if_neg h,
          if_neg (fun hp => h (congrArg Prod.fst hp))]

theorem countOcc_product (new_records : List ViolationRecord)
    (chats : List String) (r : ViolationRecord) (c : String) :
    countOcc (r, c) (new_records.flatMap fun r' => chats.map fun c' => (r', c')) =
      countOcc r new_records * countOcc c chats := by
  induction new_records with
  | nil => simp [countOcc]
  | cons a new ih =>
      rw [List.flatMap_cons, countOcc_append, ih, countOcc_map_pair, countOcc]
      by_cases h : a = r
      · rw [if_pos h, if_pos h, Nat.add_mul, Nat.one_mul]
      · rw [if_neg h, if_neg h]
        simp

/-- C4 -- Tiered delivery: the template send is attempted first; if and
only if the transport reports it failed, an image send with the composed
caption is attempted when the record's image URL is truthy; if that is
reported failed, or there is no image URL, a plain-text send is attempted;
after the first reported success no further tier is attempted; and per
detection exactly one attempt sequence occurs for each
(new record, registered address) pair. -/
theorem c4_tiered_delivery (r : ViolationRecord) (c : String)
    (tmplRes imgRes textRes : TierResult) :
    ((send_new_violation_alert r c tmplRes imgRes textRes).1.head? =
      some (templateAttempt r c)) ∧
    (tmplRes = TierResult.ok →
      (send_new_violation_alert r c tmplRes imgRes textRes).1 =
        [templateAttempt r c]) ∧
    (tmplRes = TierResult.fail → truthyStr r.image_url = true →
      imgRes = TierResult.ok →
      (send_new_violation_alert r c tmplRes imgRes textRes).1 =
        [templateAttempt r c, imageAttempt r c]) ∧
    (tmplRes = TierResult.fail → truthyStr r.image_url = true →
      imgRes = TierResult.fail →
      (send_new_violation_alert r c tmplRes imgRes textRes).1 =
        [templateAttempt r c, imageAttempt r c, textAttempt r c]) ∧
    (tmplRes = TierResult.fail → truthyStr r.image_url = false →
      (send_new_violation_alert r c tmplRes imgRes textRes).1 =
        [templateAttempt r c, textAttempt r c]) ∧
    (∀ (outcome : Outcome) (seen : Finset String)
        (fetched : List ViolationRecord) (chats : List String),
      chats.Nodup → r ∈ (pollCycle seen fetched).1 → c ∈ chats →
      countOcc (r, c) ((alertLoop outcome (pollCycle seen fetched).1 chats).map
          (fun t => (t.1, t.2.1))) = 1) := by
  refine ⟨?_, ?_, ?_, ?_, ?_, ?_⟩
  · cases tmplRes <;> cases imgRes <;>
      simp only [send_new_violation_alert] <;>
      first
        | rfl
        | (split <;> rfl)
  · intro h; subst h; rfl
  · intro h hok hi; subst h; subst hi
    simp only [send_new_violation_alert]
    rw [if_pos hok]
  · intro h hok hfail; subst h; subst hfail
    simp only [send_new_violation_alert]
    rw [if_pos hok]
  · intro h hi; subst h
    simp only [send_new_violation_alert]
    rw [if_neg (by simp [hi])]
  · intro outcome seen fetched chats hnd hr hc
    rw [alertLoop_pairs, countOcc_product]
    rw [countOcc_eq_one_of_nodup_mem (pollCycle_new_nodup seen fetched) hr,
      countOcc_eq_one_of_nodup_mem hnd hc]

/-- All-tiers-fail transport behaviour, for concrete instantiation. -/
def oFail : Outcome := fun _ _ => (TierResult.fail, TierResult.fail, TierResult.fail)

theorem c4_tiered_delivery_witness :
    (send_new_violation_alert recA "6581899220" TierResult.fail
        TierResult.fail TierResult.fail).1 =
      [templateAttempt recA "6581899220", imageAttempt recA "6581899220",
        textAttempt recA "6581899220"] ∧
    countOcc (recA, "6581899220")
      ((alertLoop oFail (pollCycle ∅ [recA]).1 ["6581899220", "96370843"]).map
        (fun t => (t.1, t.2.1))) = 1 :=
  ⟨(c4_tiered_delivery recA "6581899220" TierResult.fail TierResult.fail
      TierResult.fail).2.2.2.1 rfl (by decide) rfl,
    (c4_tiered_delivery recA "6581899220" TierResult.fail TierResult.fail
      TierResult.fail).2.2.2.2.2 oFail ∅ [recA] ["6581899220", "96370843"]
      (by decide) (by decide) (by decide)⟩

/-! ### Ordering of seen-marking and delivery within a cycle (for C9) -/

/-- Observable actions of one poll cycle: adding an identity to
`seen_record_ids`, and one tiered delivery attempt sequence for a
(record identity, chat) pair (`raised` = the alert call raised and was
caught by the loop's try/except). -/
inductive MonitorEvent where
  | markSeen (rid : String)
  | deliver (rid chat : String) (raised : Bool)
deriving DecidableEq, Repr

/-- The event trace of one poll cycle of `monitor_sql_db`: the detection
loop (src/main.py lines 337-344) performs all the `seen_record_ids.add`
calls for the new records, in fetch order, and only then does the send
loop (lines 352-359) perform the per-address deliveries. -/
def cycleEvents (seen : Finset String) (fetched : List ViolationRecord)
    (chats : List String) (outcome : Outcome) : List MonitorEvent :=
  ((pollCycle seen fetched).1.map fun r =>
      MonitorEvent.markSeen (get_record_identifier r))
    ++ (pollCycle seen fetched).1.flatMap fun r => chats.map fun c =>
        MonitorEvent.deliver (get_record_identifier r) c
          (send_new_violation_alert r c (outcome r c).1 (outcome r c).2.1
            (outcome r c).2.2).2

/-- C9 -- the claim as frozen is false on the code: even though a newly
detected record is marked seen before any delivery attempt, it IS
re-alerted in a later cycle — regardless of delivery outcomes, e.g. with
every tier failing — when its identity disappears from one fetch (the
intersection shrink purges it) and then reappears. -/
theorem c9_counterexample :
    ¬ (∀ (seen : Finset String) (f : List ViolationRecord)
        (fs : List (List ViolationRecord)) (r : ViolationRecord)
        (outcome : Outcome),
        (∀ r' c', outcome r' c' =
          (TierResult.fail, TierResult.fail, TierResult.fail)) →
        r ∈ (pollCycle seen f).1 →
        ∀ a ∈ monitorRun (pollCycle seen f).2 fs, r ∉ a) := by
  intro h
  exact h ∅ [recB] [[], [recB]] recB oFail (fun _ _ => rfl) (by decide)
    [recB] (by decide) (by decide)

/-- C9 (amended) -- In every poll cycle, each newly detected record's
identity is added to the seen-record set before any delivery attempt for
that record (the mark event precedes every deliver event for it in the
cycle's trace); the identity is in the post-cycle seen-set whatever the
delivery outcomes, so a record whose delivery fails for every address and
tier is not re-alerted in any later cycle whose every intervening fetch
still contains its identity.  (If the identity disappears from a fetch and
reappears, it is alerted again — failed alerts are never retried, but
purged identities can re-trigger.) -/
theorem c9_seen_before_delivery (seen : Finset String)
    (fetched : List ViolationRecord) (chats : List String)
    (outcome : Outcome) (r : ViolationRecord) (c : String)
    (hr : r ∈ (pollCycle seen fetched).1) (hc : c ∈ chats) :
    ([MonitorEvent.markSeen (get_record_identifier r),
      MonitorEvent.deliver (get_record_identifier r) c
        (send_new_violation_alert r c (outcome r c).1 (outcome r c).2.1
          (outcome r c).2.2).2]).Sublist
        (cycleEvents seen fetched chats outcome) ∧
    get_record_identifier r ∈ (pollCycle seen fetched).2 ∧
    (∀ fs : List (List ViolationRecord),
      (∀ f' ∈ fs, get_record_identifier r ∈ fetchIds f') →
      ∀ a ∈ monitorRun (pollCycle seen fetched).2 fs, r ∉ a) := by
  have hfetch : r ∈ fetched := (pollCycle_new_mem seen fetched r hr).1
  have hseen : get_record_identifier r ∈ (pollCycle seen fetched).2 := by
    rw [pollCycle_seen_eq]
    exact mem_fetchIds_of_mem hfetch
  refine ⟨?_, hseen, ?_⟩
  · unfold cycleEvents
    have h1 : MonitorEvent.markSeen (get_record_identifier r) ∈
        (pollCycle seen fetched).1.map fun r' =>
          MonitorEvent.markSeen (get_record_identifier r') :=
      List.mem_map_of_mem _ hr
    have h2 : MonitorEvent.deliver (get_record_identifier r) c
        (send_new_violation_alert r c (outcome r c).1 (outcome r c).2.1
          (outcome r c).2.2).2 ∈
        (pollCycle seen fetched).1.flatMap fun r' => chats.map fun c' =>
          MonitorEvent.deliver (get_record_identifier r') c'
            (send_new_violation_alert r' c' (outcome r' c').1
              (outcome r' c').2.1 (outcome r' c').2.2).2 :=
      List.mem_flatMap.mpr ⟨r, hr, List.mem_map_of_mem _ hc⟩
    exact List.Sublist.append (List.singleton_sublist.mpr h1)
      (List.singleton_sublist.mpr h2)
  · intro fs hp a ha
    exact monitorRun_not_alerted r fs (pollCycle seen fetched).2 hseen hp a ha

theorem c9_seen_before_delivery_witness :
    recA ∈ (pollCycle ∅ [recA]).1 ∧ "6581899220" ∈ ["6581899220"] ∧
      get_record_identifier recA ∈ (pollCycle ∅ [recA]).2 ∧
      (∀ a ∈ monitorRun (pollCycle ∅ [recA]).2 [[recA]], recA ∉ a) :=
  ⟨by decide, by decide,
    (c9_seen_before_delivery ∅ [recA] ["6581899220"] oFail recA "6581899220"
      (by decide) (by decide)).2.1,
    (c9_seen_before_delivery ∅ [recA] ["6581899220"] oFail recA "6581899220"
      (by decide) (by decide)).2.2 [[recA]] (by decide)⟩

/-! ### Monitor state, subscriber registration, start-up (for C6 and C8)

`MonitorState` mirrors the mutable attributes of the `ViolationMonitor`
singleton together with two facts about the polling thread:
`thread_started` records whether a thread running `monitor_sql_db` has
been spawned (only `main`, src/main.py lines 861-867, ever does this),
and `loop_seen_ids` is the seen-id set owned by `monitor_sql_db`, which
exists only once that thread has run its initialization (src/main.py
lines 300-314); it is `none` while no loop has started.  Store behaviour
is passed in as booleans: `existsAlready` (the chat id is already in the
chat-ids table) and `insertOk` (the INSERT succeeds without raising). -/

structure MonitorState where
  active_chat_ids : Finset String
  monitoring_active : Bool
  last_record_count : Nat
  parser_records : List ViolationRecord
  thread_started : Bool
  loop_seen_ids : Option (Finset String)

/-- Validation predicate of both registration sites
(src/main.py line 498, src/data.py line 356):
`chat_id.isdigit() and 8 <= len(chat_id) <= 15`. -/
def isValidChatId (s : String) : Bool :=
  !s.data.isEmpty && s.data.all Char.isDigit && 8 ≤ s.length && s.length ≤ 15

/-- Mirror of `DataParser.add_chat_id` (src/data.py lines 354-380) as
(wrote-to-store, returned-value): invalid ids and already-present ids are
rejected without an INSERT; a failing INSERT is caught and reported as
`False`. -/
def parser_add_chat_id (chat_id : String) (existsAlready insertOk : Bool) :
    Bool × Bool :=
  if isValidChatId chat_id = false then (false, false)
  else if existsAlready then (false, false)
  else if insertOk then (true, true)
  else (false, false)

/-- The module-level `add_chat_id` function (src/main.py lines 492-517):
validate, write through to the store, then reconcile the local set.
Returns (new state, returned-value, wrote-to-store). -/
def add_chat_id_global (st : MonitorState) (chat_id : String)
    (existsAlready insertOk : Bool) : MonitorState × Bool × Bool :=
  if isValidChatId chat_id = false then (st, false, false)
  else if (parser_add_chat_id chat_id existsAlready insertOk).2 then
    ({ st with active_chat_ids := insert chat_id st.active_chat_ids }, true,
      (parser_add_chat_id chat_id existsAlready insertOk).1)
  else if chat_id ∈ st.active_chat_ids then
    (st, false, (parser_add_chat_id chat_id existsAlready insertOk).1)
  else
    ({ st with active_chat_ids := insert chat_id st.active_chat_ids }, false,
      (parser_add_chat_id chat_id existsAlready insertOk).1)

/-- Mirror of `ViolationMonitor.start_monitoring` (src/main.py lines 389-429):
store add only when the id is not `"system"`; the id is ALWAYS added to
the local `active_chat_ids` set; when monitoring was inactive, re-fetch
the records, store their count, set `monitoring_active` and return True
-- but do NOT start a thread and do NOT build a seen-id set (the code
comment says only `main()` starts the thread).  Returns
(new state, returned-value, wrote-to-store). -/
def start_monitoring (st : MonitorState) (chat_id : String)
    (existsAlready insertOk : Bool) (fetched : List ViolationRecord) :
    MonitorState × Bool × Bool :=
  if st.monitoring_active = false then
    ({ st with
        active_chat_ids := insert chat_id st.active_chat_ids
        monitoring_active := true
        last_record_count := fetched.length
        parser_records := fetched }, true,
      if chat_id = "system" then false
      else (parser_add_chat_id chat_id existsAlready insertOk).1)
  else
    ({ st with active_chat_ids := insert chat_id st.active_chat_ids }, false,
      if chat_id = "system" then false
      else (parser_add_chat_id chat_id existsAlready insertOk).1)

/-- Mirror of `main` (src/main.py lines 855-868): if monitoring is not active, mark
it active and start the polling thread; the thread's initialization in
`monitor_sql_db` snapshots the fetched records as the seen-id set. -/
def main_start (st : MonitorState) (fetched : List ViolationRecord) :
    MonitorState :=
  if st.monitoring_active = false then
    { st with
        monitoring_active := true
        thread_started := true
        loop_seen_ids := some (initialSeen fetched) }
  else st

/-- A concrete Stopped state for instantiating the theorems. -/
def stoppedState : MonitorState :=
  { active_chat_ids := ∅, monitoring_active := false, last_record_count := 0,
    parser_records := [], thread_started := false, loop_seen_ids := none }

theorem parser_add_invalid (a : String) (hinv : isValidChatId a = false)
    (ea io : Bool) : parser_add_chat_id a ea io = (false, false) := by
  unfold parser_add_chat_id
  rw [if_pos hinv]

theorem parser_add_wrote_iff (chat_id : String) (ea io : Bool) :
    (parser_add_chat_id chat_id ea io).1 = true ↔
      (isValidChatId chat_id = true ∧ ea = false ∧ io = true) := by
  unfold parser_add_chat_id
  cases hv : isValidChatId chat_id <;> cases ea <;> cases io <;> simp [hv]

/-- C6 -- the claim as frozen is false on the code: `start_monitoring`
called in the Stopped state does NOT begin the polling loop on a
background execution unit and does NOT mark the present record ids as
already seen -- it leaves `thread_started` and `loop_seen_ids` untouched
(the thread is started only by `main`, and the seen-id snapshot is taken
inside `monitor_sql_db` when that thread runs). -/
theorem c6_counterexample :
    ¬ (∀ (st : MonitorState) (chat_id : String) (ea io : Bool)
        (fetched : List ViolationRecord),
        st.monitoring_active = false →
        (start_monitoring st chat_id ea io fetched).1.thread_started = true ∧
          (start_monitoring st chat_id ea io fetched).1.loop_seen_ids =
            some (initialSeen fetched)) := by
  intro h
  have hc := h stoppedState "6581899220" false true [recA] rfl
  exact absurd hc.1 (by decide)

/-- C6 (amended) -- When `start_monitoring(address)` is called in the
Stopped state it registers the address in the local cache (and writes it
through to the store exactly when the address is not `"system"`, is valid
and is not already present and the INSERT succeeds), re-fetches the
record set storing it and its count, marks monitoring active and returns
true; but it neither starts the polling thread nor builds the seen-id
snapshot -- those happen only in `main`, which starts the thread whose
initialization marks every present id as already seen. -/
theorem c6_start_monitoring_stopped (st : MonitorState) (chat_id : String)
    (ea io : Bool) (fetched : List ViolationRecord)
    (hstop : st.monitoring_active = false) :
    (start_monitoring st chat_id ea io fetched).2.1 = true ∧
    (start_monitoring st chat_id ea io fetched).1.monitoring_active = true ∧
    chat_id ∈ (start_monitoring st chat_id ea io fetched).1.active_chat_ids ∧
    (start_monitoring st chat_id ea io fetched).1.last_record_count =
      fetched.length ∧
    (start_monitoring st chat_id ea io fetched).1.parser_records = fetched ∧
    ((start_monitoring st chat_id ea io fetched).2.2 = true ↔
      (chat_id ≠ "system" ∧ isValidChatId chat_id = true ∧ ea = false ∧
        io = true)) ∧
    (start_monitoring st chat_id ea io fetched).1.thread_started =
      st.thread_started ∧
    (start_monitoring st chat_id ea io fetched).1.loop_seen_ids =
      st.loop_seen_ids ∧
    (main_start st fetched).thread_started = true ∧
    (main_start st fetched).loop_seen_ids = some (initialSeen fetched) := by
  unfold start_monitoring main_start
  rw [if_pos hstop, if_pos hstop]
  refine ⟨rfl, rfl, Finset.mem_insert_self _ _, rfl, rfl, ?_, rfl, rfl, rfl, rfl⟩
  by_cases hs : chat_id = "system"
  · simp [hs]
  · simp only [if_neg hs]
    rw [parser_add_wrote_iff]
    simp [hs]

theorem c6_start_monitoring_stopped_witness :
    (start_monitoring stoppedState "6581899220" false true [recA]).2.1 = true ∧
    (start_monitoring stoppedState "6581899220" false true [recA]).1.thread_started
      = false ∧
    (main_start stoppedState [recA]).thread_started = true :=
  ⟨(c6_start_monitoring_stopped stoppedState "6581899220" false true [recA]
      rfl).1,
    by
      rw [(c6_start_monitoring_stopped stoppedState "6581899220" false true
        [recA] rfl).2.2.2.2.2.2.1]
      rfl,
    (c6_start_monitoring_stopped stoppedState "6581899220" false true [recA]
      rfl).2.2.2.2.2.2.2.2.1⟩

/-- C8 -- the claim as frozen is false on the code: for an invalid
address, `start_monitoring` still adds the address to the in-memory
subscriber set (`self.active_chat_ids.add(chat_id)` is unconditional). -/
theorem c8_counterexample :
    ¬ (∀ (st : MonitorState) (a : String) (ea io : Bool)
        (fetched : List ViolationRecord),
        isValidChatId a = false →
        a ∉ (start_monitoring st a ea io fetched).1.active_chat_ids) := by
  intro h
  exact h stoppedState "abc" false true [] (by decide) (by decide)

/-- C8 (amended) -- For every address that is not a digits-only string of
length 8 to 15: the registry add operations (`add_chat_id` in src/main.py
and `DataParser.add_chat_id`) return false, write nothing to the store and
leave the in-memory set unchanged; `start_monitoring` also writes nothing
to the store, but it DOES add the invalid address to the in-memory
subscriber set. -/
theorem c8_invalid_address_rejected (a : String)
    (hinv : isValidChatId a = false) :
    (∀ (st : MonitorState) (ea io : Bool),
      add_chat_id_global st a ea io = (st, false, false)) ∧
    (∀ ea io : Bool, parser_add_chat_id a ea io = (false, false)) ∧
    (∀ (st : MonitorState) (ea io : Bool) (fetched : List ViolationRecord),
      (start_monitoring st a ea io fetched).2.2 = false ∧
      a ∈ (start_monitoring st a ea io fetched).1.active_chat_ids) := by
  refine ⟨?_, ?_, ?_⟩
  · intro st ea io
    unfold add_chat_id_global
    rw [if_pos hinv]
  · intro ea io
    exact parser_add_invalid a hinv ea io
  · intro st ea io fetched
    constructor
    · unfold start_monitoring
      split <;> simp [parser_add_invalid a hinv]
    · unfold start_monitoring
      split <;> exact Finset.mem_insert_self a _

theorem c8_invalid_address_rejected_witness :
    add_chat_id_global stoppedState "abc" false true =
      (stoppedState, false, false) ∧
    "abc" ∈ (start_monitoring stoppedState "abc" false true []).1.active_chat_ids :=
  ⟨(c8_invalid_address_rejected "abc" (by decide)).1 stoppedState false true,
    ((c8_invalid_address_rejected "abc" (by decide)).2.2 stoppedState false
      true []).2⟩

/-! ### `DataParser.update_resolved_status` (src/data.py lines 224-261, for C7)

Store behaviour is passed in explicitly: `parseResult` is what
`self.parse()` does (it may raise — it has no exception handler),
`connOk` is whether `get_snowflake_connection()` succeeds (it is called
OUTSIDE the try block, so its exception propagates), and
`updateRowcount` is the UPDATE statement's behaviour inside the try
block (an exception there is caught and reported as `False`; otherwise
the cursor's rowcount is returned).  The result carries the returned
boolean together with the in-memory record list after the call (the
matching record's `resolved` flag is mutated only when rowcount > 0). -/

/-- Set the `resolved` flag of the record at a 0-based position
(`record.resolved = resolved` on `records[row_index - 1]`). -/
def set_resolved_at : List ViolationRecord → Nat → Bool → List ViolationRecord
  | [], _, _ => []
  | r :: rs, 0, b => { r with resolved := b } :: rs
  | r :: rs, Nat.succ n, b => r :: set_resolved_at rs n b

def update_resolved_status (parseResult : Except Unit (List ViolationRecord))
    (connOk : Bool) (updateRowcount : Except Unit Nat) (row_index : Int)
    (resolved : Bool) : Except Unit (Bool × List ViolationRecord) :=
  match parseResult with
  | Except.error e => Except.error e
  | Except.ok records =>
    if 1 ≤ row_index ∧ row_index ≤ (records.length : Int) then
      if connOk then
        match updateRowcount with
        | Except.error _ => Except.ok (false, records)
        | Except.ok rc =>
          if rc > 0 then
            Except.ok (true, set_resolved_at records (row_index - 1).toNat resolved)
          else Except.ok (false, records)
      else Except.error ()
    else Except.ok (false, records)

/-- C7 -- the claim as frozen is false on the code: `update_resolved_status`
DOES propagate an exception to its caller when the preliminary
`self.parse()` raises (the fetch happens before the try block). -/
theorem c7_counterexample :
    ¬ (∀ (connOk : Bool) (urc : Except Unit Nat) (i : Int) (b : Bool),
        update_resolved_status (Except.error ()) connOk urc i b ≠
          Except.error ()) := by
  intro h
  exact h true (Except.ok 1) 1 true rfl

/-- C7 (amended) -- update_resolved_status returns true iff the index
was in range, the connection opened and the UPDATE reported a positive
rowcount (a matching row was updated); it returns false on an
out-of-range index and on a failing UPDATE statement; the in-memory
record's `resolved` flag is changed only when the store reports a row was
updated; but exceptions raised by the preliminary fetch or by opening the
connection DO propagate to the caller. -/
theorem c7_update_resolved (records : List ViolationRecord) (connOk : Bool)
    (urc : Except Unit Nat) (i : Int) (b : Bool) :
    (update_resolved_status (Except.error ()) connOk urc i b =
      Except.error ()) ∧
    (¬(1 ≤ i ∧ i ≤ (records.length : Int)) →
      update_resolved_status (Except.ok records) connOk urc i b =
        Except.ok (false, records)) ∧
    ((1 ≤ i ∧ i ≤ (records.length : Int)) → connOk = false →
      update_resolved_status (Except.ok records) connOk urc i b =
        Except.error ()) ∧
    ((1 ≤ i ∧ i ≤ (records.length : Int)) → connOk = true →
      urc = Except.error () →
      update_resolved_status (Except.ok records) connOk urc i b =
        Except.ok (false, records)) ∧
    (∀ rc : Nat, (1 ≤ i ∧ i ≤ (records.length : Int)) → connOk = true →
      urc = Except.ok rc →
      update_resolved_status (Except.ok records) connOk urc i b =
        (if rc > 0 then
          Except.ok (true, set_resolved_at records (i - 1).toNat b)
        else Except.ok (false, records))) ∧
    ((∃ l, update_resolved_status (Except.ok records) connOk urc i b =
        Except.ok (true, l)) ↔
      ((1 ≤ i ∧ i ≤ (records.length : Int)) ∧ connOk = true ∧
        ∃ rc : Nat, urc = Except.ok rc ∧ rc > 0)) := by
  refine ⟨rfl, ?_, ?_, ?_, ?_, ?_⟩
  · intro hn
    simp only [update_resolved_status]
    rw [if_neg hn]
  · intro hin hc
    subst hc
    simp only [update_resolved_status]
    rw [if_pos hin]
    rfl
  · intro hin hc hu
    subst hc
    subst hu
    simp only [update_resolved_status]
    rw [if_pos hin]
    simp
  · intro rc hin hc hu
    subst hc
    subst hu
    simp only [update_resolved_status]
    rw [if_pos hin]
    simp
  · constructor
    · rintro ⟨l, hl⟩
      simp only [update_resolved_status] at hl
      by_cases hin : 1 ≤ i ∧ i ≤ (records.length : Int)
      · rw [if_pos hin] at hl
        cases connOk
        · simp at hl
        · cases urc with
          | error e => simp at hl
          | ok rc =>
              by_cases hrc : rc > 0
              · exact ⟨hin, rfl, rc, rfl, hrc⟩
              · simp [hrc] at hl
      · rw [if_neg hin] at hl
        simp at hl
    · rintro ⟨hin, hc, rc, hrc, hpos⟩
      subst hc
      subst hrc
      refine ⟨set_resolved_at records (i - 1).toNat b, ?_⟩
      simp only [update_resolved_status]
      rw [if_pos hin]
      simp [hpos]

theorem c7_update_resolved_witness :
    update_resolved_status (Except.ok [recA]) true (Except.ok 1) 1 true =
      Except.ok (true, set_resolved_at [recA] 0 true) ∧
    update_resolved_status (Except.error ()) true (Except.ok 1) 1 true =
      Except.error () ∧
    update_resolved_status (Except.ok [recA]) true (Except.ok 1) 5 true =
      Except.ok (false, [recA]) :=
  ⟨by
      rw [(c7_update_resolved [recA] true (Except.ok 1) 1 true).2.2.2.2.1 1
        (by decide) rfl rfl]
      rfl,
    (c7_update_resolved [recA] true (Except.ok 1) 1 true).1,
    (c7_update_resolved [recA] true (Except.ok 1) 5 true).2.1 (by decide)⟩

/-! ### Loading active chat ids (src/data.py lines 382-396,
src/main.py lines 192-202, for C10)

`DataParser.get_active_chat_ids` opens the connection and cursor OUTSIDE
its try block (their exceptions propagate), and catches any exception of
the query itself, returning the accumulated `chat_ids = []`.
`ViolationMonitor._load_chat_ids_from_snowflake` catches anything that
escapes and substitutes the hardcoded fallback `{"96370843"}`. -/

def get_active_chat_ids (connRaises : Bool)
    (queryResult : Except Unit (List String)) : Except Unit (List String) :=
  if connRaises then Except.error ()
  else
    match queryResult with
    | Except.ok l => Except.ok l
    | Except.error _ => Except.ok []

def load_chat_ids_from_snowflake (connRaises : Bool)
    (queryResult : Except Unit (List String)) : Finset String :=
  match get_active_chat_ids connRaises queryResult with
  | Except.ok l => l.toFinset
  | Except.error _ => {"96370843"}

/-- C10 -- the claim as frozen is false on the code: when the SELECT on
the chat-ids table fails, `get_active_chat_ids` swallows the exception
and returns the empty list, so the in-memory subscriber set IS left empty
-- the `{"96370843"}` fallback fires only when the exception escapes
`get_active_chat_ids` (e.g. the connection itself cannot be opened). -/
theorem c10_counterexample :
    ¬ (∀ (connRaises : Bool) (q : Except Unit (List String)),
        (connRaises = true ∨ q = Except.error ()) →
        load_chat_ids_from_snowflake connRaises q = {"96370843"}) := by
  intro h
  have hc := h false (Except.error ()) (Or.inr rfl)
  exact absurd hc (by decide)

/-- C10 (amended) -- During monitor construction: if opening the
connection (or the cursor) raises, the in-memory subscriber set is set to
the hardcoded fallback singleton `{"96370843"}`; if instead the query
itself fails, `get_active_chat_ids` swallows the error and returns `[]`,
leaving the subscriber set empty; on success the set mirrors the fetched
list. -/
theorem c10_fallback_chat_ids (connRaises : Bool)
    (q : Except Unit (List String)) :
    (connRaises = true →
      load_chat_ids_from_snowflake connRaises q = {"96370843"}) ∧
    (connRaises = false → ∀ e : Unit, q = Except.error e →
      load_chat_ids_from_snowflake connRaises q = ∅) ∧
    (connRaises = false → ∀ l : List String, q = Except.ok l →
      load_chat_ids_from_snowflake connRaises q = l.toFinset) := by
  refine ⟨?_, ?_, ?_⟩
  · intro h
    subst h
    rfl
  · intro h e hq
    subst h
    subst hq
    rfl
  · intro h l hq
    subst h
    subst hq
    rfl

theorem c10_fallback_chat_ids_witness :
    load_chat_ids_from_snowflake true (Except.ok ["12345678"]) =
      {"96370843"} ∧
    load_chat_ids_from_snowflake false (Except.error ()) = ∅ ∧
    load_chat_ids_from_snowflake false (Except.ok ["12345678"]) =
      (["12345678"] : List String).toFinset :=
  ⟨(c10_fallback_chat_ids true (Except.ok ["12345678"])).1 rfl,
    (c10_fallback_chat_ids false (Except.error ())).2.1 rfl () rfl,
    (c10_fallback_chat_ids false (Except.ok ["12345678"])).2.2 rfl
      ["12345678"] rfl⟩

end CCTV
